import Mathlib

/-!
Formal model of the risk-scoring subsystem of a URL-scanning service.

The development shallowly embeds three pieces of the TypeScript backend:

* `Scoring.calculateScore` — the top-level score aggregator
  (`src/backend/src/services/scoring.ts`, second revision, lines 157-312);
* `Analyzer.analyzeRequest` — the per-request classifier
  (`src/backend/src/services/docker/playwrightScript.ts`, enriched revision);
* `Analyzer.analyzeAllRequests` — the request-set aggregator (same file).

JavaScript numbers are modelled as `Int`/`Nat` (all arithmetic in these
functions is integer-valued), strings as Lean `String`, optional fields as
`Option`, and JS `Set`/`Map` literals as lists in insertion order.
-/

/-! ## String helpers modelling JavaScript string primitives -/

/-- Model of `needle` occurring as a contiguous substring of a character
list (naive scan).  An empty needle always matches, as in JavaScript's
`String.prototype.includes`. -/
def charsContain (hay needle : List Char) : Bool :=
  needle.isPrefixOf hay ||
    match hay with
    | [] => false
    | _ :: rest => charsContain rest needle

/-- Model of JavaScript `s.includes(needle)`. -/
def jsIncludes (s needle : String) : Bool :=
  charsContain s.data needle.data

/-- Model of JavaScript `s.endsWith(suffix)`. -/
def jsEndsWith (s suffix : String) : Bool :=
  suffix.data.isSuffixOf s.data

/-- ASCII lower-casing of one character (JavaScript `toLowerCase` on the
ASCII range; the URLs in scope are ASCII). -/
def lowerChar (c : Char) : Char :=
  if 'A' ≤ c && c ≤ 'Z' then Char.ofNat (c.toNat + 32) else c

/-- Model of JavaScript `s.toLowerCase()` (ASCII range). -/
def jsToLower (s : String) : String :=
  String.mk (s.data.map lowerChar)

/-- Model of JavaScript `s.split(sep)` for a single-character separator:
no merging of consecutive separators, empty pieces are kept. -/
def splitOnCharGo (sep : Char) : List Char → List Char → List String
  | [], cur => [String.mk cur.reverse]
  | c :: rest, cur =>
    if c == sep then String.mk cur.reverse :: splitOnCharGo sep rest []
    else splitOnCharGo sep rest (c :: cur)

/-- Model of JavaScript `s.split('.')`-style splitting. -/
def jsSplitChar (sep : Char) (s : String) : List String :=
  splitOnCharGo sep s.data []

/-- First `n` characters of a string (JavaScript `s.substring(0, n)`). -/
def strTake (s : String) (n : Nat) : String :=
  String.mk (s.data.take n)

/-- Model of `Array.prototype.join(', ')`. -/
def joinComma : List String → String
  | [] => ""
  | [x] => x
  | x :: xs => x ++ ", " ++ joinComma xs

/-! ## Top-level scorer (`scoring.ts`)

Data model: `ScanResult` with its `checks` map.  Only the fields that
`calculateScore` reads are modelled; each optional check is an `Option`.
-/

namespace Scoring

structure WhoisResult where
  createdDate : String
  ageInDays : Int
  registrar : String
  deriving DecidableEq, Repr

structure SslResult where
  valid : Bool
  issuer : String
  expiresOn : String
  daysUntilExpiry : Int
  tlsVersion : String
  cipher : String
  cipherStrength : String
  deriving DecidableEq, Repr

structure GeolocationResult where
  ip : String
  city : String
  country : String
  isp : String
  org : String
  deriving DecidableEq, Repr

structure SafeBrowsingResult where
  isSafe : Bool
  threats : List String
  deriving DecidableEq, Repr

structure ReverseDnsResult where
  hostname : String
  ip : String
  «matches» : Bool
  hostnames : List String
  deriving DecidableEq, Repr

structure PortScanResult where
  ip : String
  openPorts : List Int
  suspiciousPorts : List Int
  isSuspicious : Bool
  deriving DecidableEq, Repr

structure IpReputationResult where
  ip : String
  abuseConfidenceScore : Int
  isWhitelisted : Bool
  totalReports : Int
  isSuspicious : Bool
  deriving DecidableEq, Repr

structure DockerNetEntry where
  url : String
  domain : String
  resourceType : String
  status : Option Int
  isSuspicious : Bool
  reason : Option String
  deriving DecidableEq, Repr

structure DockerScanCheck where
  success : Bool
  networkRequests : List DockerNetEntry
  suspiciousRequests : List DockerNetEntry
  totalRequests : Nat
  thirdPartyDomains : List String
  error : Option String
  deriving DecidableEq, Repr

structure SecurityHeadersResult where
  score : Int
  grade : String
  deriving DecidableEq, Repr

structure CookieSecurityResult where
  totalCookies : Nat
  secureCookies : Nat
  hasIssues : Bool
  deriving DecidableEq, Repr

structure ExposedFile where
  path : String
  severity : String
  deriving DecidableEq, Repr

structure SensitiveFileResult where
  exposedFiles : List ExposedFile
  robotsTxtPaths : List String
  hasVulnerabilities : Bool
  criticalCount : Nat
  highCount : Nat
  deriving DecidableEq, Repr

structure VersionDisclosureResult where
  serverVersion : Option String
  poweredBy : Option String
  hasDisclosure : Bool
  riskLevel : String
  deriving DecidableEq, Repr

structure FoundPanel where
  path : String
  type : String
  deriving DecidableEq, Repr

structure AdminPanelResult where
  foundPanels : List FoundPanel
  hasExposedPanels : Bool
  deriving DecidableEq, Repr

structure Checks where
  whois : Option WhoisResult
  ssl : Option SslResult
  geolocation : Option GeolocationResult
  safeBrowsing : Option SafeBrowsingResult
  reverseDns : Option ReverseDnsResult
  portScan : Option PortScanResult
  ipReputation : Option IpReputationResult
  dockerScan : Option DockerScanCheck
  securityHeaders : Option SecurityHeadersResult
  cookieSecurity : Option CookieSecurityResult
  sensitiveFiles : Option SensitiveFileResult
  versionDisclosure : Option VersionDisclosureResult
  adminPanels : Option AdminPanelResult
  deriving DecidableEq, Repr

structure ScanResult where
  url : String
  score : Int
  checks : Checks
  deriving DecidableEq, Repr

/-- The `checks` map with every check absent. -/
def emptyChecks : Checks :=
  { whois := none, ssl := none, geolocation := none, safeBrowsing := none,
    reverseDns := none, portScan := none, ipReputation := none,
    dockerScan := none, securityHeaders := none, cookieSecurity := none,
    sensitiveFiles := none, versionDisclosure := none, adminPanels := none }

/-- `calculateScore` from `scoring.ts` (revision with all checks).  Each
`score -= d` of the imperative source becomes one subtracted term; the
fail-fast Safe-Browsing return and the final clamp are kept verbatim. -/
def calculateScore (result : ScanResult) : Int :=
  -- Safe Browsing scoring (CRITICAL - fail immediately)
  if (match result.checks.safeBrowsing with
      | some sb => !sb.isSafe
      | none => false) then 0
  else
    let score : Int := 100
    -- Domain age scoring
    let score := score -
      (match result.checks.whois with
       | some w =>
         if w.ageInDays < 7 then 40
         else if w.ageInDays < 30 then 20
         else if w.ageInDays < 90 then 10
         else 0
       | none => 0)
    -- SSL scoring (enhanced); absence of the check costs 20
    let score := score -
      (match result.checks.ssl with
       | some ssl =>
         (if !ssl.valid then 30
          else if ssl.daysUntilExpiry < 7 then 15
          else 0) +
         (if ssl.cipherStrength == "weak" then 20
          else if ssl.cipherStrength == "moderate" then 5
          else 0) +
         (if ssl.tlsVersion != "" &&
             !jsIncludes ssl.tlsVersion "1.2" &&
             !jsIncludes ssl.tlsVersion "1.3" then 15 else 0)
       | none => 20)
    -- Reverse DNS scoring
    let score := score -
      (match result.checks.reverseDns with
       | some r => if !r.«matches» then 5 else 0
       | none => 0)
    -- Port scan scoring
    let score := score -
      (match result.checks.portScan with
       | some p => if p.isSuspicious then 15 else 0
       | none => 0)
    -- IP Reputation scoring
    let score := score -
      (match result.checks.ipReputation with
       | some rep =>
         (if rep.abuseConfidenceScore > 75 then 40
          else if rep.abuseConfidenceScore > 50 then 25
          else if rep.abuseConfidenceScore > 25 then 10
          else 0) +
         (if rep.totalReports > 100 then 15
          else if rep.totalReports > 50 then 10
          else if rep.totalReports > 10 then 5
          else 0)
       | none => 0)
    -- Docker sandbox scoring
    let score := score -
      (match result.checks.dockerScan with
       | some docker =>
         if !docker.success then 5
         else
           (if docker.suspiciousRequests.length > 5 then 30
            else if docker.suspiciousRequests.length > 2 then 20
            else if docker.suspiciousRequests.length > 0 then 10
            else 0) +
           (if docker.thirdPartyDomains.length > 20 then 10
            else if docker.thirdPartyDomains.length > 10 then 5
            else 0)
       | none => 0)
    -- Security Headers scoring
    let score := score -
      (match result.checks.securityHeaders with
       | some headers =>
         if headers.grade == "F" then 20
         else if headers.grade == "D" then 15
         else if headers.grade == "C" then 10
         else if headers.grade == "B" then 5
         else 0
       | none => 0)
    -- Cookie Security scoring; `secureCookies / totalCookies < r` is the
    -- rational comparison (for `totalCookies = 0` the JS float comparison
    -- against NaN/Infinity is false, as is the rational form below)
    let score := score -
      (match result.checks.cookieSecurity with
       | some ck =>
         if ck.hasIssues then
           if 2 * ck.secureCookies < ck.totalCookies then 10
           else if ck.secureCookies < ck.totalCookies then 5
           else 0
         else 0
       | none => 0)
    -- Vulnerability Scoring - Sensitive Files (CRITICAL)
    let score := score -
      (match result.checks.sensitiveFiles with
       | some sf =>
         if sf.hasVulnerabilities then
           (sf.criticalCount : Int) * 25 + (sf.highCount : Int) * 15 +
             ((sf.exposedFiles.length : Int) - sf.criticalCount - sf.highCount) * 5
         else 0
       | none => 0)
    -- Version Disclosure scoring
    let score := score -
      (match result.checks.versionDisclosure with
       | some vd =>
         if vd.hasDisclosure then
           if vd.riskLevel == "high" then 15
           else if vd.riskLevel == "medium" then 8
           else 3
         else 0
       | none => 0)
    -- Admin Panel scoring (informational, minor penalty)
    let score := score -
      (match result.checks.adminPanels with
       | some ap =>
         if ap.hasExposedPanels then
           ((ap.foundPanels.filter (fun p => p.type == "debug")).length : Int) * 10 +
             ((ap.foundPanels.filter (fun p => p.type == "admin")).length : Int) * 3
         else 0
       | none => 0)
    max 0 (min 100 score)

end Scoring

namespace Scoring

/-- A scan result flagged unsafe by Safe Browsing, used as concrete input. -/
def unsafeScan : ScanResult :=
  { url := "https://bad.example", score := 0,
    checks := { emptyChecks with
                safeBrowsing := some { isSafe := false, threats := ["MALWARE"] },
                whois := some { createdDate := "2026-01-01", ageInDays := 1, registrar := "r" } } }

/-- A scan result with an empty `checks` map, used as concrete input. -/
def emptyScan : ScanResult :=
  { url := "https://example.com", score := 0, checks := emptyChecks }

end Scoring

/-- C1: whenever the `checks` map contains a Safe-Browsing entry with
`isSafe = false`, `calculateScore` returns 0, whatever the other checks
hold; the fail-fast return precedes every deduction. -/
theorem calculateScore_safeBrowsing_unsafe_eq_zero
    (r : Scoring.ScanResult) (sb : Scoring.SafeBrowsingResult)
    (h1 : r.checks.safeBrowsing = some sb) (h2 : sb.isSafe = false) :
    Scoring.calculateScore r = 0 := by
  unfold Scoring.calculateScore
  rw [h1]
  simp [h2]

/-- Witness for C1: a concrete scan result marked unsafe by Safe Browsing
(and with a very new domain, which would otherwise deduct) scores 0. -/
theorem calculateScore_safeBrowsing_unsafe_eq_zero_witness :
    Scoring.unsafeScan.checks.safeBrowsing =
      some { isSafe := false, threats := ["MALWARE"] } ∧
    Scoring.calculateScore Scoring.unsafeScan = 0 :=
  ⟨rfl, calculateScore_safeBrowsing_unsafe_eq_zero Scoring.unsafeScan
    { isSafe := false, threats := ["MALWARE"] } rfl rfl⟩

/-- C2 counterexample: on the `ScanResult` whose `checks` map is empty,
`calculateScore` returns 80, not 100 — the missing-SSL branch deducts 20
even when no SSL check was run. -/
theorem calculateScore_emptyChecks_ne_100 :
    Scoring.calculateScore Scoring.emptyScan ≠ 100 ∧
    Scoring.calculateScore Scoring.emptyScan = 80 := by
  constructor
  · decide
  · decide

/-- C2 amended: for every `ScanResult` whose `checks` map is empty,
`calculateScore` returns exactly 80 (100 minus the 20-point deduction for
absent SSL data; no other check being present, nothing else deducts). -/
theorem calculateScore_emptyChecks_eq_80 (url : String) (score : Int) :
    Scoring.calculateScore { url := url, score := score, checks := Scoring.emptyChecks } = 80 := by
  rfl

/-- C3: for every well-typed `ScanResult`, the returned score lies in
[0, 100]: the function either fail-fasts to 0 or clamps its running total
with `max 0 (min 100 _)`. -/
theorem calculateScore_mem_range (r : Scoring.ScanResult) :
    0 ≤ Scoring.calculateScore r ∧ Scoring.calculateScore r ≤ 100 := by
  unfold Scoring.calculateScore
  split
  · exact ⟨le_refl 0, by norm_num⟩
  · exact ⟨le_max_left 0 _, max_le (by norm_num) (min_le_left 100 _)⟩

/-- C9: `calculateScore` reads only the `checks` field: two scan results
with equal `checks` maps receive equal scores, whatever their `url` and
incoming `score` fields. -/
theorem calculateScore_depends_only_on_checks
    (r1 r2 : Scoring.ScanResult) (h : r1.checks = r2.checks) :
    Scoring.calculateScore r1 = Scoring.calculateScore r2 := by
  obtain ⟨u1, s1, c1⟩ := r1
  obtain ⟨u2, s2, c2⟩ := r2
  simp only at h
  subst h
  rfl

/-- Witness for C9: two concrete scan results that differ in `url` and in
the incoming `score` field but share the same `checks` map get the same
score. -/
theorem calculateScore_depends_only_on_checks_witness :
    ({ url := "https://a.example", score := 3, checks := Scoring.emptyChecks } : Scoring.ScanResult).checks =
      ({ url := "https://b.example", score := 97, checks := Scoring.emptyChecks } : Scoring.ScanResult).checks ∧
    Scoring.calculateScore { url := "https://a.example", score := 3, checks := Scoring.emptyChecks } =
      Scoring.calculateScore { url := "https://b.example", score := 97, checks := Scoring.emptyChecks } :=
  ⟨rfl, calculateScore_depends_only_on_checks
    { url := "https://a.example", score := 3, checks := Scoring.emptyChecks }
    { url := "https://b.example", score := 97, checks := Scoring.emptyChecks } rfl⟩

/-! ## Per-request classifier (`playwrightScript.ts`, enriched revision)

The classifier calls the platform's WHATWG `URL` constructor
(`new URL(request.url)`); that constructor is a JavaScript builtin, not
repository code, so it is modelled below by a simplified parser.  The
simplifications (no percent-decoding or IDNA mapping in the host, no
IPv6-bracket or multi-slash authority handling, an empty host fails for
every scheme carrying an authority) do not affect any property proved
here: the theorems either hold for every parse outcome or are evaluated
on plain ASCII `scheme://host/path?query` inputs on which the model and
the builtin agree. -/

namespace Analyzer

structure Url where
  protocol : String
  hostname : String
  pathname : String
  search : String
  deriving DecidableEq, Repr

def isAsciiAlpha (c : Char) : Bool :=
  ('a' ≤ c && c ≤ 'z') || ('A' ≤ c && c ≤ 'Z')

def isAsciiDigit (c : Char) : Bool :=
  '0' ≤ c && c ≤ '9'

def isSchemeChar (c : Char) : Bool :=
  isAsciiAlpha c || isAsciiDigit c || c == '+' || c == '-' || c == '.'

/-- Splits `scheme:rest`, accepting scheme characters until a colon. -/
def schemeSplit : List Char → List Char → Option (List Char × List Char)
  | acc, ':' :: rest => some (acc.reverse, rest)
  | acc, c :: rest => if isSchemeChar c then schemeSplit (c :: acc) rest else none
  | _, [] => none

def isAuthorityEnd (c : Char) : Bool :=
  c == '/' || c == '?' || c == '#'

/-- Drops a `userinfo@` part: keeps what follows the last `'@'`. -/
def afterLastAt (cs : List Char) : List Char :=
  if cs.contains '@' then (cs.reverse.takeWhile (· != '@')).reverse else cs

/-- Drops a `:port` part. -/
def stripPort (cs : List Char) : List Char :=
  cs.takeWhile (· != ':')

/-- Splits `path?query#fragment` into path and query. -/
def pathAndQuery (cs : List Char) : List Char × List Char :=
  let path := cs.takeWhile (fun c => c != '?' && c != '#')
  match cs.dropWhile (fun c => c != '?' && c != '#') with
  | '?' :: q => (path, q.takeWhile (· != '#'))
  | _ => (path, [])

def SPECIAL_SCHEMES : List String := ["http", "https", "ws", "wss", "ftp", "file"]

/-- Model of the WHATWG `URL` constructor: `none` models the constructor
throwing.  A URL needs a scheme; a special scheme needs a nonempty host;
the host is lower-cased and stripped of userinfo and port; `search`
includes the leading `'?'` when nonempty; a special-scheme empty path
reads `"/"`. -/
def parseUrl (s : String) : Option Url :=
  match s.data with
  | [] => none
  | c :: rest =>
    if !isAsciiAlpha c then none
    else
      match schemeSplit [c] rest with
      | none => none
      | some (schemeChars, afterColon) =>
        let scheme := String.mk (schemeChars.map lowerChar)
        if SPECIAL_SCHEMES.contains scheme then
          let afterSlashes := afterColon.dropWhile (· == '/')
          let auth := afterSlashes.takeWhile (fun ch => !isAuthorityEnd ch)
          let tail := afterSlashes.dropWhile (fun ch => !isAuthorityEnd ch)
          let host := stripPort (afterLastAt auth)
          if host.isEmpty then none
          else
            let pq := pathAndQuery tail
            some { protocol := scheme ++ ":",
                   hostname := String.mk (host.map lowerChar),
                   pathname := if pq.1.isEmpty then "/" else String.mk pq.1,
                   search := if pq.2.isEmpty then "" else String.mk ('?' :: pq.2) }
        else
          let pq := pathAndQuery afterColon
          some { protocol := scheme ++ ":", hostname := "",
                 pathname := String.mk pq.1,
                 search := if pq.2.isEmpty then "" else String.mk ('?' :: pq.2) }

/-! ### Static policy tables (`docker/constants.ts`, enriched revision)

JS `Set`/`Map` literals become lists in insertion order; `has` becomes
list membership. -/

def SUSPICIOUS_TLDS : List String :=
  [".xyz", ".tk", ".ml", ".ga", ".cf", ".gq", ".top", ".work", ".click",
   ".link", ".buzz", ".surf", ".icu", ".monster", ".quest", ".sbs",
   ".rest", ".fit", ".cam", ".loan", ".racing", ".review", ".stream",
   ".ru", ".cn", ".cc", ".ws", ".pw", ".su"]

/-- `extractTld` from `constants.ts`. -/
def extractTld (domain : String) : String :=
  let parts := jsSplitChar '.' domain
  if parts.length ≥ 2 then "." ++ parts.getLast! else ""

def SUSPICIOUS_KEYWORDS : List String :=
  ["login", "signin", "sign-in", "log-in", "verify", "verification",
   "secure", "security", "account", "password", "credential", "auth",
   "authenticate", "banking", "wallet", "confirm", "update", "suspend",
   "urgent", "suspended", "locked", "limited", "expire", "winner",
   "prize", "congratulation", "claim", "gift", "free", "bonus", "reward",
   "crypto", "bitcoin", "ethereum", "airdrop", "giveaway", "double",
   "binance", "coinbase", "metamask", "opensea", "nft"]

def BRAND_DOMAINS : List (String × String) :=
  [("paypal", "paypal.com"), ("netflix", "netflix.com"),
   ("amazon", "amazon.com"), ("apple", "apple.com"),
   ("microsoft", "microsoft.com"), ("google", "google.com"),
   ("facebook", "facebook.com"), ("instagram", "instagram.com"),
   ("whatsapp", "whatsapp.com"), ("telegram", "telegram.org"),
   ("discord", "discord.com"), ("twitter", "twitter.com"),
   ("linkedin", "linkedin.com"), ("dropbox", "dropbox.com"),
   ("chase", "chase.com"), ("wellsfargo", "wellsfargo.com"),
   ("bankofamerica", "bankofamerica.com")]

def SUSPICIOUS_EXTENSIONS : List String :=
  [".exe", ".scr", ".bat", ".cmd", ".msi", ".jar", ".js", ".vbs",
   ".ps1", ".hta", ".apk", ".dmg", ".iso", ".zip", ".rar", ".7z",
   ".dll", ".com", ".pif", ".application", ".gadget", ".wsf", ".inf"]

def TRACKING_DOMAINS : List String :=
  ["doubleclick.net", "googlesyndication.com", "googleadservices.com",
   "facebook.net", "fbcdn.net", "analytics.google.com", "google-analytics.com",
   "hotjar.com", "mouseflow.com", "fullstory.com", "clarity.ms",
   "mixpanel.com", "segment.io", "amplitude.com", "heap.io",
   "crazyegg.com", "inspectlet.com", "luckyorange.com"]

def CRYPTOMINER_DOMAINS : List String :=
  ["coinhive.com", "coin-hive.com", "jsecoin.com", "cryptoloot.pro",
   "crypto-loot.com", "miner.pr0gramm.com", "webmine.pro", "authedmine.com",
   "ppoi.org", "projectpoi.com", "minero.cc", "reasedoper.pw"]

def MAX_QUERY_STRING_LENGTH : Nat := 500
def MAX_URL_LENGTH : Nat := 500
def EXTREME_URL_LENGTH : Nat := 1000

end Analyzer

namespace Analyzer

/-! ### Regular-expression models

Each member of the source's `SUSPICIOUS_PATTERNS` array is a fixed
regular expression; each is modelled by an executable scanner over the
character list.  Case-insensitive (`/i`) patterns receive the lower-cased
URL.  `\s` is modelled over the ASCII whitespace characters. -/

def isJsSpace (c : Char) : Bool :=
  c == ' ' || c == '\t' || c == '\n' || c == '\r' || c == '\x0b' || c == '\x0c'

def isB64LowerChar (c : Char) : Bool :=
  ('a' ≤ c && c ≤ 'z') || isAsciiDigit c || c == '+' || c == '/'

def isHexLowerChar (c : Char) : Bool :=
  ('a' ≤ c && c ≤ 'f') || isAsciiDigit c

def isHexDigitChar (c : Char) : Bool :=
  isAsciiDigit c || ('a' ≤ c && c ≤ 'f') || ('A' ≤ c && c ≤ 'F')

def isB64Char (c : Char) : Bool :=
  ('A' ≤ c && c ≤ 'Z') || ('a' ≤ c && c ≤ 'z') || isAsciiDigit c || c == '+' || c == '/'

/-- `/base64,[a-z0-9+\/]\x7b100,\x7d/i`: some occurrence of `base64,` is
followed by at least 100 base64-alphabet characters. -/
def base64PayloadScan : List Char → Bool
  | [] => false
  | c :: rest =>
      ("base64,".data.isPrefixOf (c :: rest) &&
        decide (100 ≤ (((c :: rest).drop 7).takeWhile isB64LowerChar).length))
      || base64PayloadScan rest

/-- `/eval\s*\(/i`: `eval`, optional whitespace, then `(`. -/
def evalParenScan : List Char → Bool
  | [] => false
  | c :: rest =>
      ("eval".data.isPrefixOf (c :: rest) &&
        ((((c :: rest).drop 4).dropWhile isJsSpace).head? == some '('))
      || evalParenScan rest

/-- `=` followed by at least 32 hex characters, anywhere in the list. -/
def eqHexRunScan : List Char → Bool
  | [] => false
  | '=' :: rest => decide (32 ≤ (rest.takeWhile isHexLowerChar).length) || eqHexRunScan rest
  | _ :: rest => eqHexRunScan rest

/-- `/\.php\?.*=[a-f0-9]\x7b32,\x7d/i`: `.php?` followed (later) by `=` and a
32-hex-character run. -/
def phpHashScan : List Char → Bool
  | [] => false
  | c :: rest =>
      (".php?".data.isPrefixOf (c :: rest) && eqHexRunScan ((c :: rest).drop 5))
      || phpHashScan rest

/-- Matches `\s+(all\s+)?select` against the text following `union`. -/
def unionSelectAfter (cs : List Char) : Bool :=
  !(cs.takeWhile isJsSpace).isEmpty &&
    (let r := cs.dropWhile isJsSpace
     "select".data.isPrefixOf r ||
       ("all".data.isPrefixOf r &&
         !((r.drop 3).takeWhile isJsSpace).isEmpty &&
         "select".data.isPrefixOf ((r.drop 3).dropWhile isJsSpace)))

/-- `/union\s+(all\s+)?select/i`. -/
def unionSelectScan : List Char → Bool
  | [] => false
  | c :: rest =>
      ("union".data.isPrefixOf (c :: rest) && unionSelectAfter ((c :: rest).drop 5))
      || unionSelectScan rest

/-- `=` preceded by optional whitespace at the head of the list. -/
def eqAfterWs (cs : List Char) : Bool :=
  (cs.dropWhile isJsSpace).head? == some '='

/-- `/on(error|load|click)\s*=/i`. -/
def onEventScan : List Char → Bool
  | [] => false
  | c :: rest =>
      (("onerror".data.isPrefixOf (c :: rest) && eqAfterWs ((c :: rest).drop 7)) ||
       ("onload".data.isPrefixOf (c :: rest) && eqAfterWs ((c :: rest).drop 6)) ||
       ("onclick".data.isPrefixOf (c :: rest) && eqAfterWs ((c :: rest).drop 7)))
      || onEventScan rest

/-- `/%[0-9A-Fa-f]\x7b2\x7d/g` match count: number of non-overlapping
percent-encoded byte sequences, scanning left to right. -/
def countPercentEncoded : List Char → Nat
  | '%' :: a :: b :: rest =>
    if isHexDigitChar a && isHexDigitChar b then 1 + countPercentEncoded rest
    else countPercentEncoded (a :: b :: rest)
  | _ :: rest => countPercentEncoded rest
  | [] => 0

/-- Length of the longest run of base64-alphabet characters. -/
def maxB64Run : List Char → Nat → Nat → Nat
  | [], cur, best => max best cur
  | c :: rest, cur, best =>
    if isB64Char c then maxB64Run rest (cur + 1) best
    else maxB64Run rest 0 (max best cur)

/-- `/[A-Za-z0-9+/]\x7b50,\x7d=\x7b0,2\x7d/` applied to the query string: a run of at
least 50 base64-alphabet characters occurs (the optional `=` padding does
not constrain the match). -/
def hasBase64Run (s : String) : Bool :=
  decide (50 ≤ maxB64Run s.data 0 0)

/-- A `SUSPICIOUS_PATTERNS` entry: the regex source text (used in the
reason message) and its test, modelled as a Lean predicate. -/
structure UrlPattern where
  source : String
  test : String → Bool

/-- `SUSPICIOUS_PATTERNS` from `constants.ts` (enriched revision), in
array order. -/
def SUSPICIOUS_PATTERNS : List UrlPattern :=
  [⟨"data:text\\/html", fun u => jsIncludes (jsToLower u) "data:text/html"⟩,
   ⟨"javascript:", fun u => jsIncludes (jsToLower u) "javascript:"⟩,
   ⟨"base64,[a-z0-9+/]\x7b100,\x7d", fun u => base64PayloadScan (jsToLower u).data⟩,
   ⟨"eval\\s*\\(", fun u => evalParenScan (jsToLower u).data⟩,
   ⟨"document\\.(cookie|location|write)", fun u =>
     jsIncludes (jsToLower u) "document.cookie" ||
     jsIncludes (jsToLower u) "document.location" ||
     jsIncludes (jsToLower u) "document.write"⟩,
   ⟨"\\.php\\?.*=[a-f0-9]\x7b32,\x7d", fun u => phpHashScan (jsToLower u).data⟩,
   ⟨"\\/wp-(admin|login|includes)", fun u =>
     jsIncludes (jsToLower u) "/wp-admin" ||
     jsIncludes (jsToLower u) "/wp-login" ||
     jsIncludes (jsToLower u) "/wp-includes"⟩,
   ⟨"\\/\\.env", fun u => jsIncludes (jsToLower u) "/.env"⟩,
   ⟨"\\/etc\\/passwd", fun u => jsIncludes (jsToLower u) "/etc/passwd"⟩,
   ⟨"\\.\\.\\/", fun u => jsIncludes u "../"⟩,
   ⟨"union\\s+(all\\s+)?select", fun u => unionSelectScan (jsToLower u).data⟩,
   ⟨"<script", fun u => jsIncludes (jsToLower u) "<script"⟩,
   ⟨"on(error|load|click)\\s*=", fun u => onEventScan (jsToLower u).data⟩]

/-! ### Word splitting and per-rule helpers -/

def isLowerAlnum (c : Char) : Bool :=
  ('a' ≤ c && c ≤ 'z') || isAsciiDigit c

/-- Model of `urlLower.split(/[^a-z0-9]+/)`: maximal non-alphanumeric runs
act as single separators; boundary runs produce empty pieces. -/
def splitNonAlnumGo : List Char → List Char → Bool → List String → List String
  | [], cur, _, acc => (String.mk cur.reverse :: acc).reverse
  | c :: rest, cur, inDelim, acc =>
    if isLowerAlnum c then splitNonAlnumGo rest (c :: cur) false acc
    else if inDelim then splitNonAlnumGo rest cur true acc
    else splitNonAlnumGo rest [] true (String.mk cur.reverse :: acc)

def urlWordsOf (urlLower : String) : List String :=
  splitNonAlnumGo urlLower.data [] false []

/-- The `foundKeywords` array built by the keyword rule: every word of the
split URL that is longer than 2 characters, is in `SUSPICIOUS_KEYWORDS`,
and is not a substring of `originalDomain` — occurrences are kept with
multiplicity, exactly as the source pushes them. -/
def foundKeywordsOf (urlLower originalDomain : String) : List String :=
  (urlWordsOf urlLower).filter (fun word =>
    decide (word.length > 2) && SUSPICIOUS_KEYWORDS.contains word &&
      !jsIncludes originalDomain word)

/-- `^\d\x7b1,3\x7d\.\d\x7b1,3\x7d\.\d\x7b1,3\x7d\.\d\x7b1,3\x7d$` — dotted-quad test. -/
def isDottedQuadPart (s : String) : Bool :=
  decide (1 ≤ s.length) && decide (s.length ≤ 3) && s.data.all isAsciiDigit

def isDottedQuad (domain : String) : Bool :=
  match jsSplitChar '.' domain with
  | [a, b, c, d] => isDottedQuadPart a && isDottedQuadPart b && isDottedQuadPart c && isDottedQuadPart d
  | _ => false

/-- First suspicious extension matched by the pathname (`break` on first). -/
def findSuspiciousExtension (pathname : String) : Option String :=
  SUSPICIOUS_EXTENSIONS.find? (fun ext =>
    jsEndsWith pathname ext || jsIncludes pathname (ext ++ "?"))

/-- First malicious pattern matching the raw URL (`break` on first). -/
def findSuspiciousPattern (rawUrl : String) : Option UrlPattern :=
  SUSPICIOUS_PATTERNS.find? (fun p => p.test rawUrl)

/-- First brand whose token occurs in the domain while the domain does not
end with the brand's legitimate domain. -/
def findBrandHit (domain : String) : Option (String × String) :=
  BRAND_DOMAINS.find? (fun bd => jsIncludes domain bd.1 && !jsEndsWith domain bd.2)

/-- First tracking domain equal to, or a dot-suffix of, the domain. -/
def findTracker (domain : String) : Option String :=
  TRACKING_DOMAINS.find? (fun t => domain == t || jsEndsWith domain ("." ++ t))

/-- First cryptominer domain equal to, or a dot-suffix of, the domain. -/
def findMiner (domain : String) : Option String :=
  CRYPTOMINER_DOMAINS.find? (fun m => domain == m || jsEndsWith domain ("." ++ m))

end Analyzer

namespace Analyzer

/-! ### The classifier -/

structure NetworkRequest where
  url : String
  domain : String
  resourceType : String
  status : Option Int
  isSuspicious : Bool
  reason : Option String
  deriving DecidableEq, Repr

inductive RiskLevel where
  | low
  | medium
  | high
  | critical
  deriving DecidableEq, Repr

structure AnalysisResult where
  isSuspicious : Bool
  reasons : List String
  riskLevel : RiskLevel
  categories : List String
  riskScore : Nat
  deriving DecidableEq, Repr

/-- The trailing risk-level classification of `analyzeRequest`. -/
def riskLevelOf (riskScore : Nat) : RiskLevel :=
  if riskScore ≥ 50 then RiskLevel.critical
  else if riskScore ≥ 30 then RiskLevel.high
  else if riskScore ≥ 15 then RiskLevel.medium
  else RiskLevel.low

/-- The `{low: 1, medium: 2, high: 3, critical: 4}` lookup used by the
aggregator. -/
def riskValue : RiskLevel → Nat
  | RiskLevel.low => 1
  | RiskLevel.medium => 2
  | RiskLevel.high => 3
  | RiskLevel.critical => 4

/-- The classifier's mutable loop state: the `reasons` array, the
`categories` JS `Set` (insertion-ordered, duplicate-free), and the
running `riskScore`. -/
structure Acc where
  reasons : List String
  categories : List String
  riskScore : Nat
  deriving DecidableEq, Repr

/-- One triggered rule: `reasons.push(...)`, `categories.add(...)`,
`riskScore += delta`. -/
def Acc.add (st : Acc) (reason category : String) (delta : Nat) : Acc :=
  { reasons := st.reasons ++ [reason],
    categories :=
      if st.categories.contains category then st.categories
      else st.categories ++ [category],
    riskScore := st.riskScore + delta }

/-- `if (cond) { ...one rule... }`. -/
def Acc.condAdd (cond : Bool) (reason category : String) (delta : Nat) (st : Acc) : Acc :=
  if cond then st.add reason category delta else st

/-- `if (c1) { ...rule1... } else if (c2) { ...rule2... }`. -/
def Acc.condAdd2 (c1 : Bool) (r1 cat1 : String) (d1 : Nat)
    (c2 : Bool) (r2 cat2 : String) (d2 : Nat) (st : Acc) : Acc :=
  if c1 then st.add r1 cat1 d1 else if c2 then st.add r2 cat2 d2 else st

/-- A `for`-loop with `break` on first hit, the hit feeding the reason. -/
def Acc.matchAdd {α : Type} (found : Option α) (reason : α → String)
    (category : String) (delta : Nat) (st : Acc) : Acc :=
  match found with
  | some x => st.add (reason x) category delta
  | none => st

/-- The body of `analyzeRequest`: the `try` block turns into the
well-formed branch (one accumulator step per rule, in source order), the
`catch` into the malformed branch.  The only throwing expression of the
`try` block is `new URL(request.url)`, its first statement, so the catch
state is exactly one triggered malformed-URL rule. -/
def analyzeRequestAcc (request : NetworkRequest) (originalDomain : String) : Acc :=
  match parseUrl request.url with
  | none =>
    -- catch: reasons.push('Malformed URL'); categories.add('malformed'); riskScore += 10
    { reasons := ["Malformed URL"], categories := ["malformed"], riskScore := 10 }
  | some url =>
    let urlLower := jsToLower request.url
    let domain := jsToLower url.hostname
    let st : Acc := { reasons := [], categories := [], riskScore := 0 }
    -- Check for suspicious TLDs
    let tld := extractTld domain
    let st := st.condAdd (SUSPICIOUS_TLDS.contains tld)
      ("Suspicious TLD: " ++ tld) "suspicious-tld" 15
    -- Check for direct IP address URLs
    let st := st.condAdd (isDottedQuad domain)
      "Direct IP address URL (bypassing DNS)" "ip-based" 30
    -- Check URL length
    let st := Acc.condAdd2
      (decide (urlLower.length > EXTREME_URL_LENGTH))
      ("Extremely long URL (" ++ toString urlLower.length ++ " chars) - possible obfuscation")
      "obfuscation" 25
      (decide (urlLower.length > MAX_URL_LENGTH))
      ("Long URL (" ++ toString urlLower.length ++ " chars)") "obfuscation" 10 st
    -- Check for suspicious keywords
    let foundKeywords := foundKeywordsOf urlLower originalDomain
    let st := st.condAdd (decide (foundKeywords.length > 0))
      ("Suspicious keywords: " ++ joinComma (foundKeywords.eraseDups.take 5))
      "phishing-keywords" (min (foundKeywords.length * 5) 25)
    -- Check for suspicious file extensions
    let pathname := jsToLower url.pathname
    let st := Acc.matchAdd (findSuspiciousExtension pathname)
      (fun ext => "Suspicious file download: " ++ ext) "malware-download" 35 st
    -- Check for malicious URL patterns
    let st := Acc.matchAdd (findSuspiciousPattern request.url)
      (fun p => "Suspicious pattern: " ++ strTake p.source 30 ++ "...")
      "malicious-pattern" 30 st
    -- Check for excessive URL encoding
    let encodedCount := countPercentEncoded request.url.data
    let st := st.condAdd (decide (encodedCount > 10))
      ("Heavy URL encoding (" ++ toString encodedCount ++ " encoded chars)")
      "obfuscation" 20
    -- Check query string length
    let st := st.condAdd (decide (url.search.length > MAX_QUERY_STRING_LENGTH))
      "Unusually long query string (potential data exfiltration)"
      "data-exfiltration" 25
    -- Check for base64 data in query strings
    let st := st.condAdd (hasBase64Run url.search)
      "Possible data exfiltration (base64 in query)" "data-exfiltration" 20
    -- Check for internationalized domains (homograph attacks)
    let st := st.condAdd (jsIncludes domain "xn--")
      "Internationalized domain (potential homograph attack)" "homograph" 25
    -- Check for subdomain abuse
    let subdomainCount : Int := ((jsSplitChar '.' domain).length : Int) - 2
    let st := st.condAdd (decide (subdomainCount > 3))
      ("Excessive subdomains (" ++ toString subdomainCount ++ ") - possible impersonation")
      "subdomain-abuse" 15
    -- Check for brand impersonation
    let st := Acc.matchAdd (findBrandHit domain)
      (fun bd => "Possible " ++ bd.1 ++ " impersonation") "brand-impersonation" 40 st
    -- Check for tracking domains
    let st := Acc.matchAdd (findTracker domain)
      (fun t => "Tracking domain: " ++ t) "tracking" 5 st
    -- Check for cryptominer domains
    let st := Acc.matchAdd (findMiner domain)
      (fun m => "Known cryptominer: " ++ m) "cryptominer" 50 st
    -- Check for sensitive operations over HTTP
    let st := st.condAdd (url.protocol == "http:" && decide (foundKeywords.length > 0))
      "Sensitive operation over insecure HTTP" "insecure-http" 30
    -- Check for cross-origin API calls (the inner known-tracker loop
    -- becomes the final `any` conjunct)
    let st := st.condAdd
      ((request.resourceType == "xhr" || request.resourceType == "fetch") &&
        domain != originalDomain && !TRACKING_DOMAINS.contains domain &&
        !TRACKING_DOMAINS.any (fun t => jsEndsWith domain t))
      ("Cross-origin API call to: " ++ domain) "cross-origin" 10
    -- Check for redirects to different domains: the guard literally
    -- compares request.url with itself; the nested domain test is the
    -- final conjunct
    let st := st.condAdd
      ((request.url != request.url) &&
        (match request.status with | some s => decide (s ≠ 0) | none => false) &&
        (match request.status with
         | some s => [(301 : Int), 302, 303, 307, 308].contains s
         | none => false) &&
        domain != originalDomain)
      ("Redirect to different domain: " ++ domain) "redirect" 15
    st

/-- `analyzeRequest` from the enriched analyzer: runs the rule pipeline,
then derives `riskLevel` and `isSuspicious` from the accumulated score. -/
def analyzeRequest (request : NetworkRequest) (originalDomain : String) : AnalysisResult :=
  let st := analyzeRequestAcc request originalDomain
  { isSuspicious := decide (st.riskScore ≥ 15),
    reasons := st.reasons,
    riskLevel := riskLevelOf st.riskScore,
    categories := st.categories,
    riskScore := st.riskScore }

end Analyzer

namespace Analyzer

/-! ### Per-rule score contributions

One function per rule block of `analyzeRequest`, giving the number of
points the block adds to `riskScore`.  Conditions are written exactly as
in the pipeline above so that the decomposition theorem relates them. -/

def tldDelta (domain : String) : Nat :=
  if SUSPICIOUS_TLDS.contains (extractTld domain) then 15 else 0

def ipDelta (domain : String) : Nat :=
  if isDottedQuad domain then 30 else 0

def lengthDelta (urlLower : String) : Nat :=
  if decide (urlLower.length > EXTREME_URL_LENGTH) then 25
  else if decide (urlLower.length > MAX_URL_LENGTH) then 10
  else 0

/-- The phishing-keyword rule's contribution: 5 points per pushed keyword
occurrence, capped at 25. -/
def keywordDelta (urlLower originalDomain : String) : Nat :=
  if decide ((foundKeywordsOf urlLower originalDomain).length > 0) then
    min ((foundKeywordsOf urlLower originalDomain).length * 5) 25
  else 0

def extensionDelta (pathname : String) : Nat :=
  if (findSuspiciousExtension pathname).isSome then 35 else 0

def patternDelta (rawUrl : String) : Nat :=
  if (findSuspiciousPattern rawUrl).isSome then 30 else 0

def encodingDelta (rawUrl : String) : Nat :=
  if decide (countPercentEncoded rawUrl.data > 10) then 20 else 0

def queryLengthDelta (search : String) : Nat :=
  if decide (search.length > MAX_QUERY_STRING_LENGTH) then 25 else 0

def base64Delta (search : String) : Nat :=
  if hasBase64Run search then 20 else 0

def punycodeDelta (domain : String) : Nat :=
  if jsIncludes domain "xn--" then 25 else 0

def subdomainDelta (domain : String) : Nat :=
  if decide ((((jsSplitChar '.' domain).length : Int) - 2) > 3) then 15 else 0

def brandDelta (domain : String) : Nat :=
  if (findBrandHit domain).isSome then 40 else 0

def trackingDelta (domain : String) : Nat :=
  if (findTracker domain).isSome then 5 else 0

def minerDelta (domain : String) : Nat :=
  if (findMiner domain).isSome then 50 else 0

def httpDelta (protocol urlLower originalDomain : String) : Nat :=
  if protocol == "http:" && decide ((foundKeywordsOf urlLower originalDomain).length > 0)
  then 30 else 0

def crossOriginDelta (resourceType domain originalDomain : String) : Nat :=
  if (resourceType == "xhr" || resourceType == "fetch") &&
      domain != originalDomain && !TRACKING_DOMAINS.contains domain &&
      !TRACKING_DOMAINS.any (fun t => jsEndsWith domain t)
  then 10 else 0

/-- Sum of the contributions of every rule except the phishing-keyword
rule, for a well-formed request parsed as `url`. -/
def restDelta (request : NetworkRequest) (originalDomain : String) (url : Url) : Nat :=
  tldDelta (jsToLower url.hostname) + ipDelta (jsToLower url.hostname) +
  lengthDelta (jsToLower request.url) + extensionDelta (jsToLower url.pathname) +
  patternDelta request.url + encodingDelta request.url +
  queryLengthDelta url.search + base64Delta url.search +
  punycodeDelta (jsToLower url.hostname) + subdomainDelta (jsToLower url.hostname) +
  brandDelta (jsToLower url.hostname) + trackingDelta (jsToLower url.hostname) +
  minerDelta (jsToLower url.hostname) +
  httpDelta url.protocol (jsToLower request.url) originalDomain +
  crossOriginDelta request.resourceType (jsToLower url.hostname) originalDomain

/-! ### The request-set aggregator (`analyzeAllRequests`) -/

structure AnalyzedRequest where
  request : NetworkRequest
  analysis : AnalysisResult
  deriving DecidableEq, Repr

structure Summary where
  totalRequests : Nat
  suspiciousCount : Nat
  criticalCount : Nat
  highCount : Nat
  categories : List (String × Nat)
  overallRisk : String
  totalRiskScore : Nat
  deriving DecidableEq, Repr

structure AnalyzeAllResult where
  analyzedRequests : List AnalyzedRequest
  suspiciousRequests : List AnalyzedRequest
  summary : Summary
  deriving DecidableEq, Repr

/-- The aggregation loop's mutable state. -/
structure AllState where
  analyzedRequests : List AnalyzedRequest
  suspiciousRequests : List AnalyzedRequest
  categoryCounts : List (String × Nat)
  criticalCount : Nat
  highCount : Nat
  highestRisk : Nat
  totalRiskScore : Nat
  deriving DecidableEq, Repr

/-- `categoryCounts[cat] = (categoryCounts[cat] || 0) + 1` on the
JS-object model (association list keyed in insertion order). -/
def bumpCategory (h : List (String × Nat)) (cat : String) : List (String × Nat) :=
  match h with
  | [] => [(cat, 1)]
  | (k, v) :: rest =>
    if k == cat then (k, v + 1) :: rest else (k, v) :: bumpCategory rest cat

/-- Reading `categoryCounts[cat] || 0` from the association-list model. -/
def histCount (h : List (String × Nat)) (cat : String) : Nat :=
  match h with
  | [] => 0
  | (k, v) :: rest => if k == cat then v else histCount rest cat

/-- One iteration of the `for (const request of requests)` loop. -/
def stepAll (originalDomain : String) (st : AllState) (request : NetworkRequest) : AllState :=
  let analysis := analyzeRequest request originalDomain
  let analyzed : AnalyzedRequest := { request := request, analysis := analysis }
  let st := { st with analyzedRequests := st.analyzedRequests ++ [analyzed] }
  if analysis.isSuspicious then
    { st with
      suspiciousRequests := st.suspiciousRequests ++ [analyzed],
      totalRiskScore := st.totalRiskScore + analysis.riskScore,
      criticalCount := st.criticalCount + (if analysis.riskLevel == RiskLevel.critical then 1 else 0),
      highCount := st.highCount + (if analysis.riskLevel == RiskLevel.high then 1 else 0),
      categoryCounts := analysis.categories.foldl bumpCategory st.categoryCounts,
      highestRisk := max st.highestRisk (riskValue analysis.riskLevel) }
  else st

def initAllState : AllState :=
  { analyzedRequests := [], suspiciousRequests := [], categoryCounts := [],
    criticalCount := 0, highCount := 0, highestRisk := 0, totalRiskScore := 0 }

/-- `(['safe', 'low', 'medium', 'high', 'critical'])[highestRisk]`; the
index is always ≤ 4, so the default is never read. -/
def overallRiskName (highestRisk : Nat) : String :=
  ["safe", "low", "medium", "high", "critical"].getD highestRisk "safe"

/-- `analyzeAllRequests` from the enriched analyzer. -/
def analyzeAllRequests (requests : List NetworkRequest) (originalDomain : String) :
    AnalyzeAllResult :=
  let st := requests.foldl (stepAll originalDomain) initAllState
  { analyzedRequests := st.analyzedRequests,
    suspiciousRequests := st.suspiciousRequests,
    summary := { totalRequests := requests.length,
                 suspiciousCount := st.suspiciousRequests.length,
                 criticalCount := st.criticalCount,
                 highCount := st.highCount,
                 categories := st.categoryCounts,
                 overallRisk := overallRiskName st.highestRisk,
                 totalRiskScore := st.totalRiskScore } }

end Analyzer

namespace Analyzer

/-! ### Accumulator lemmas -/

theorem Acc.condAdd_riskScore (b : Bool) (r c : String) (d : Nat) (st : Acc) :
    (Acc.condAdd b r c d st).riskScore = st.riskScore + (if b then d else 0) := by
  cases b <;> simp [Acc.condAdd, Acc.add]

theorem Acc.condAdd2_riskScore (b1 : Bool) (r1 c1 : String) (d1 : Nat)
    (b2 : Bool) (r2 c2 : String) (d2 : Nat) (st : Acc) :
    (Acc.condAdd2 b1 r1 c1 d1 b2 r2 c2 d2 st).riskScore =
      st.riskScore + (if b1 then d1 else if b2 then d2 else 0) := by
  cases b1 <;> cases b2 <;> simp [Acc.condAdd2, Acc.add]

theorem Acc.matchAdd_riskScore {α : Type} (f : Option α) (r : α → String)
    (c : String) (d : Nat) (st : Acc) :
    (Acc.matchAdd f r c d st).riskScore = st.riskScore + (if f.isSome then d else 0) := by
  cases f <;> simp [Acc.matchAdd, Acc.add]

theorem Acc.condAdd_false (r c : String) (d : Nat) (st : Acc) :
    Acc.condAdd false r c d st = st := rfl

theorem Acc.mem_add_categories {x : String} {st : Acc} {r c : String} {d : Nat}
    (h : x ∈ (Acc.add st r c d).categories) : x ∈ st.categories ∨ x = c := by
  simp only [Acc.add] at h
  split at h
  · exact Or.inl h
  · rcases List.mem_append.mp h with h | h
    · exact Or.inl h
    · simp only [List.mem_singleton] at h
      exact Or.inr h

theorem Acc.mem_condAdd_categories {x : String} {b : Bool} {r c : String}
    {d : Nat} {st : Acc} (h : x ∈ (Acc.condAdd b r c d st).categories) :
    x ∈ st.categories ∨ x = c := by
  cases b
  · exact Or.inl h
  · exact Acc.mem_add_categories h

theorem Acc.mem_condAdd2_categories {x : String} {b1 : Bool} {r1 c1 : String}
    {d1 : Nat} {b2 : Bool} {r2 c2 : String} {d2 : Nat} {st : Acc}
    (h : x ∈ (Acc.condAdd2 b1 r1 c1 d1 b2 r2 c2 d2 st).categories) :
    x ∈ st.categories ∨ x = c1 ∨ x = c2 := by
  cases b1
  · cases b2
    · exact Or.inl h
    · rcases Acc.mem_add_categories h with h | h
      · exact Or.inl h
      · exact Or.inr (Or.inr h)
  · rcases Acc.mem_add_categories h with h | h
    · exact Or.inl h
    · exact Or.inr (Or.inl h)

theorem Acc.mem_matchAdd_categories {α : Type} {x : String} {f : Option α}
    {r : α → String} {c : String} {d : Nat} {st : Acc}
    (h : x ∈ (Acc.matchAdd f r c d st).categories) : x ∈ st.categories ∨ x = c := by
  cases f
  · exact Or.inl h
  · exact Acc.mem_add_categories h

end Analyzer

/-- C6: every classification carries the risk level dictated by its risk
score (critical at ≥50, high at ≥30, medium at ≥15, else low), and is
flagged suspicious exactly when the score is at least 15. -/
theorem analyzeRequest_riskLevel_of_riskScore
    (req : Analyzer.NetworkRequest) (o : String) :
    (Analyzer.analyzeRequest req o).riskLevel =
      (if (Analyzer.analyzeRequest req o).riskScore ≥ 50 then Analyzer.RiskLevel.critical
       else if (Analyzer.analyzeRequest req o).riskScore ≥ 30 then Analyzer.RiskLevel.high
       else if (Analyzer.analyzeRequest req o).riskScore ≥ 15 then Analyzer.RiskLevel.medium
       else Analyzer.RiskLevel.low) ∧
    ((Analyzer.analyzeRequest req o).isSuspicious = true ↔
      (Analyzer.analyzeRequest req o).riskScore ≥ 15) := by
  constructor
  · simp [Analyzer.analyzeRequest, Analyzer.riskLevelOf]
  · simp [Analyzer.analyzeRequest]

/-- The classification produced by the catch branch. -/
def Analyzer.malformedResult : Analyzer.AnalysisResult :=
  { isSuspicious := false, reasons := ["Malformed URL"],
    riskLevel := Analyzer.RiskLevel.low, categories := ["malformed"],
    riskScore := 10 }

/-- C4: a request whose URL does not parse is classified exactly as the
malformed-URL result, for every origin domain; no other rule fires. -/
theorem analyzeRequest_malformed (req : Analyzer.NetworkRequest) (o : String)
    (h : Analyzer.parseUrl req.url = none) :
    Analyzer.analyzeRequest req o = Analyzer.malformedResult := by
  simp [Analyzer.analyzeRequest, Analyzer.analyzeRequestAcc, h,
    Analyzer.riskLevelOf, Analyzer.malformedResult]

/-- A request record whose `url` does not parse. -/
def Analyzer.malformedReq : Analyzer.NetworkRequest :=
  { url := "not a url", domain := "", resourceType := "document",
    status := none, isSuspicious := false, reason := none }

/-- Witness for C4: the concrete record with url `"not a url"` fails to
parse and receives exactly the malformed classification. -/
theorem analyzeRequest_malformed_witness :
    Analyzer.parseUrl Analyzer.malformedReq.url = none ∧
    Analyzer.analyzeRequest Analyzer.malformedReq "example.com" =
      Analyzer.malformedResult :=
  ⟨rfl, analyzeRequest_malformed Analyzer.malformedReq "example.com" rfl⟩

/-- C10: no classification ever carries the category `"redirect"`: the
redirect rule's guard compares `request.url` with itself, so the branch is
unreachable, and no other rule adds that category. -/
theorem analyzeRequest_no_redirect_category
    (req : Analyzer.NetworkRequest) (o : String) :
    "redirect" ∉ (Analyzer.analyzeRequest req o).categories := by
  open Analyzer in
  intro h
  simp only [Analyzer.analyzeRequest] at h
  rcases hp : Analyzer.parseUrl req.url with _ | url
  · simp only [Analyzer.analyzeRequestAcc, hp] at h
    exact absurd h (by decide)
  · simp only [Analyzer.analyzeRequestAcc, hp, bne_self_eq_false, Bool.false_and,
      Acc.condAdd_false] at h
    replace h := (Acc.mem_condAdd_categories h).resolve_right (by decide)
    replace h := (Acc.mem_condAdd_categories h).resolve_right (by decide)
    replace h := (Acc.mem_matchAdd_categories h).resolve_right (by decide)
    replace h := (Acc.mem_matchAdd_categories h).resolve_right (by decide)
    replace h := (Acc.mem_matchAdd_categories h).resolve_right (by decide)
    replace h := (Acc.mem_condAdd_categories h).resolve_right (by decide)
    replace h := (Acc.mem_condAdd_categories h).resolve_right (by decide)
    replace h := (Acc.mem_condAdd_categories h).resolve_right (by decide)
    replace h := (Acc.mem_condAdd_categories h).resolve_right (by decide)
    replace h := (Acc.mem_condAdd_categories h).resolve_right (by decide)
    replace h := (Acc.mem_matchAdd_categories h).resolve_right (by decide)
    replace h := (Acc.mem_matchAdd_categories h).resolve_right (by decide)
    replace h := (Acc.mem_condAdd_categories h).resolve_right (by decide)
    replace h := (Acc.mem_condAdd2_categories h).resolve_right (by decide)
    replace h := (Acc.mem_condAdd_categories h).resolve_right (by decide)
    replace h := (Acc.mem_condAdd_categories h).resolve_right (by decide)
    exact absurd h (List.not_mem_nil _)

/-- A request whose URL contains the keyword `login` twice, nothing else
suspicious. -/
def Analyzer.loginTwiceReq : Analyzer.NetworkRequest :=
  { url := "https://example.com/login/login", domain := "example.com",
    resourceType := "script", status := none, isSuspicious := false, reason := none }

/-- The same request with a single `login` occurrence. -/
def Analyzer.loginOnceReq : Analyzer.NetworkRequest :=
  { url := "https://example.com/login", domain := "example.com",
    resourceType := "script", status := none, isSuspicious := false, reason := none }

/-- The parse of `loginTwiceReq.url`. -/
def Analyzer.loginTwiceUrl : Analyzer.Url :=
  { protocol := "https:", hostname := "example.com",
    pathname := "/login/login", search := "" }

/-- C5 counterexample: two requests with the same single distinct matched
keyword (`login`) and no other triggered rule score 10 and 5 points
respectively — the keyword rule counts occurrences, not distinct
keywords, so a repeated keyword does add extra points. -/
theorem analyzeRequest_keyword_distinct_counterexample :
    (Analyzer.foundKeywordsOf (jsToLower Analyzer.loginTwiceReq.url) "example.com").eraseDups
      = ["login"] ∧
    (Analyzer.analyzeRequest Analyzer.loginTwiceReq "example.com").categories
      = ["phishing-keywords"] ∧
    (Analyzer.analyzeRequest Analyzer.loginTwiceReq "example.com").riskScore = 10 ∧
    (Analyzer.analyzeRequest Analyzer.loginTwiceReq "example.com").riskScore ≠ 5 ∧
    (Analyzer.foundKeywordsOf (jsToLower Analyzer.loginOnceReq.url) "example.com").eraseDups
      = ["login"] ∧
    (Analyzer.analyzeRequest Analyzer.loginOnceReq "example.com").riskScore = 5 := by
  refine ⟨by decide, by decide, by decide, by decide, by decide, by decide⟩

/-- The keyword rule's contribution is 5 points per keyword occurrence
(with multiplicity), capped at 25, also when no keyword matches. -/
theorem keywordDelta_eq_min (u o : String) :
    Analyzer.keywordDelta u o =
      min ((Analyzer.foundKeywordsOf u o).length * 5) 25 := by
  by_cases h : (Analyzer.foundKeywordsOf u o).length > 0
  · simp [Analyzer.keywordDelta, h]
  · simp [Analyzer.keywordDelta, h]
    omega

/-- C5 amended: for every well-formed request, the classifier's score is
the sum of the other rules' contributions plus the keyword rule's
contribution, and that contribution is `min (5 × occurrences) 25`, where
occurrences counts matched keywords with multiplicity (a word matches
when punct-delimited, longer than 2 characters, in the denylist, and not
a substring of the origin domain). -/
theorem analyzeRequest_keyword_rule
    (request : Analyzer.NetworkRequest) (originalDomain : String)
    (url : Analyzer.Url) (h : Analyzer.parseUrl request.url = some url) :
    (Analyzer.analyzeRequest request originalDomain).riskScore =
      Analyzer.restDelta request originalDomain url +
        Analyzer.keywordDelta (jsToLower request.url) originalDomain ∧
    Analyzer.keywordDelta (jsToLower request.url) originalDomain =
      min ((Analyzer.foundKeywordsOf (jsToLower request.url) originalDomain).length * 5) 25 := by
  open Analyzer in
  refine ⟨?_, keywordDelta_eq_min _ _⟩
  simp only [analyzeRequest, analyzeRequestAcc, h, bne_self_eq_false, Bool.false_and,
    Acc.condAdd_false, Acc.condAdd_riskScore, Acc.condAdd2_riskScore,
    Acc.matchAdd_riskScore, restDelta, tldDelta, ipDelta, lengthDelta, keywordDelta,
    extensionDelta, patternDelta, encodingDelta, queryLengthDelta, base64Delta,
    punycodeDelta, subdomainDelta, brandDelta, trackingDelta, minerDelta,
    httpDelta, crossOriginDelta]
  ring

/-- Witness for C5 amended: the decomposition instantiated on the
double-`login` request. -/
theorem analyzeRequest_keyword_rule_witness :
    Analyzer.parseUrl Analyzer.loginTwiceReq.url = some Analyzer.loginTwiceUrl ∧
    ((Analyzer.analyzeRequest Analyzer.loginTwiceReq "example.com").riskScore =
      Analyzer.restDelta Analyzer.loginTwiceReq "example.com" Analyzer.loginTwiceUrl +
        Analyzer.keywordDelta (jsToLower Analyzer.loginTwiceReq.url) "example.com" ∧
     Analyzer.keywordDelta (jsToLower Analyzer.loginTwiceReq.url) "example.com" =
      min ((Analyzer.foundKeywordsOf (jsToLower Analyzer.loginTwiceReq.url) "example.com").length * 5) 25) :=
  ⟨rfl, analyzeRequest_keyword_rule Analyzer.loginTwiceReq "example.com"
    Analyzer.loginTwiceUrl rfl⟩

namespace Analyzer

/-! ### Aggregation-loop characterizations

One lemma per component of the loop state, each proved by induction on
the request list with the state generalized. -/

theorem foldl_stepAll_suspiciousRequests (o : String) (l : List NetworkRequest)
    (st : AllState) :
    (l.foldl (stepAll o) st).suspiciousRequests =
      st.suspiciousRequests ++
        (l.filter (fun r => (analyzeRequest r o).isSuspicious)).map
          (fun r => { request := r, analysis := analyzeRequest r o }) := by
  induction l generalizing st with
  | nil => simp
  | cons r l ih =>
    simp only [List.foldl_cons, List.filter_cons]
    rw [ih]
    cases hs : (analyzeRequest r o).isSuspicious
    · simp [stepAll, hs]
    · simp [stepAll, hs]

theorem foldl_stepAll_criticalCount (o : String) (l : List NetworkRequest)
    (st : AllState) :
    (l.foldl (stepAll o) st).criticalCount =
      st.criticalCount +
        l.countP (fun r => (analyzeRequest r o).isSuspicious &&
          ((analyzeRequest r o).riskLevel == RiskLevel.critical)) := by
  induction l generalizing st with
  | nil => simp
  | cons r l ih =>
    simp only [List.foldl_cons, List.countP_cons]
    rw [ih]
    cases hs : (analyzeRequest r o).isSuspicious
    · simp [stepAll, hs]
    · simp only [stepAll, hs, if_true]
      cases hc : ((analyzeRequest r o).riskLevel == RiskLevel.critical)
      · simp [hc]
      · simp [hc]
        omega

theorem foldl_stepAll_highCount (o : String) (l : List NetworkRequest)
    (st : AllState) :
    (l.foldl (stepAll o) st).highCount =
      st.highCount +
        l.countP (fun r => (analyzeRequest r o).isSuspicious &&
          ((analyzeRequest r o).riskLevel == RiskLevel.high)) := by
  induction l generalizing st with
  | nil => simp
  | cons r l ih =>
    simp only [List.foldl_cons, List.countP_cons]
    rw [ih]
    cases hs : (analyzeRequest r o).isSuspicious
    · simp [stepAll, hs]
    · simp only [stepAll, hs, if_true]
      cases hc : ((analyzeRequest r o).riskLevel == RiskLevel.high)
      · simp [hc]
      · simp [hc]
        omega

theorem foldl_stepAll_totalRiskScore (o : String) (l : List NetworkRequest)
    (st : AllState) :
    (l.foldl (stepAll o) st).totalRiskScore =
      st.totalRiskScore +
        (l.map (fun r => if (analyzeRequest r o).isSuspicious
          then (analyzeRequest r o).riskScore else 0)).sum := by
  induction l generalizing st with
  | nil => simp
  | cons r l ih =>
    simp only [List.foldl_cons, List.map_cons, List.sum_cons]
    rw [ih]
    cases hs : (analyzeRequest r o).isSuspicious
    · simp [stepAll, hs]
    · simp [stepAll, hs]
      omega

theorem foldl_stepAll_highestRisk (o : String) (l : List NetworkRequest)
    (st : AllState) :
    (l.foldl (stepAll o) st).highestRisk =
      max st.highestRisk
        ((l.map (fun r => if (analyzeRequest r o).isSuspicious
          then riskValue (analyzeRequest r o).riskLevel else 0)).foldr max 0) := by
  induction l generalizing st with
  | nil => simp
  | cons r l ih =>
    simp only [List.foldl_cons, List.map_cons, List.foldr_cons]
    rw [ih]
    cases hs : (analyzeRequest r o).isSuspicious
    · simp [stepAll, hs]
    · simp [stepAll, hs]
      omega

theorem histCount_bumpCategory (h : List (String × Nat)) (c x : String) :
    histCount (bumpCategory h c) x =
      histCount h x + (if c == x then 1 else 0) := by
  induction h with
  | nil =>
    simp only [bumpCategory, histCount]
    cases hcx : (c == x) <;> simp [hcx]
  | cons kv rest ih =>
    obtain ⟨k, v⟩ := kv
    simp only [bumpCategory]
    cases hkc : (k == c)
    · simp only [Bool.false_eq_true, if_false, histCount]
      cases hkx : (k == x)
      · simp only [Bool.false_eq_true, if_false, ih]
      · simp only [if_true]
        have : ¬(c == x) = true := by
          intro hc
          rw [eq_of_beq hc] at hkc
          rw [eq_of_beq hkx] at hkc
          simp at hkc
        simp [this]
    · simp only [if_true, histCount]
      have hk : k = c := eq_of_beq hkc
      subst hk
      cases hkx : (k == x)
      · simp [hkx]
      · simp [hkx]

theorem histCount_foldl_bump (cats : List String) (h : List (String × Nat)) (x : String) :
    histCount (cats.foldl bumpCategory h) x = histCount h x + cats.count x := by
  induction cats generalizing h with
  | nil => simp
  | cons c cats ih =>
    simp only [List.foldl_cons, List.count_cons]
    rw [ih, histCount_bumpCategory]
    cases hcx : (c == x)
    · simp [hcx]
    · simp [hcx]
      omega

theorem foldl_stepAll_histCount (o : String) (l : List NetworkRequest)
    (st : AllState) (x : String) :
    histCount (l.foldl (stepAll o) st).categoryCounts x =
      histCount st.categoryCounts x +
        (l.map (fun r => if (analyzeRequest r o).isSuspicious
          then (analyzeRequest r o).categories.count x else 0)).sum := by
  induction l generalizing st with
  | nil => simp
  | cons r l ih =>
    simp only [List.foldl_cons, List.map_cons, List.sum_cons]
    rw [ih]
    cases hs : (analyzeRequest r o).isSuspicious
    · simp [stepAll, hs]
    · simp [stepAll, hs, histCount_foldl_bump]
      omega

/-- A fold of `max` over a list is invariant under permutation. -/
theorem perm_foldr_max (l l' : List Nat) (h : l.Perm l') :
    l.foldr max 0 = l'.foldr max 0 := by
  induction h with
  | nil => rfl
  | cons x h ih => simp [List.foldr_cons, ih]
  | swap x y l => simp only [List.foldr_cons]; exact max_left_comm y x _
  | trans h1 h2 ih1 ih2 => exact ih1.trans ih2

end Analyzer

/-- C7: aggregation is order-independent — for permuted request lists the
summaries agree on every field: request and severity counts, the category
histogram read as a map, the overall risk, and the total risk score. -/
theorem analyzeAllRequests_perm_summary
    (l l' : List Analyzer.NetworkRequest) (o : String) (h : l.Perm l') :
    (Analyzer.analyzeAllRequests l o).summary.totalRequests =
      (Analyzer.analyzeAllRequests l' o).summary.totalRequests ∧
    (Analyzer.analyzeAllRequests l o).summary.suspiciousCount =
      (Analyzer.analyzeAllRequests l' o).summary.suspiciousCount ∧
    (Analyzer.analyzeAllRequests l o).summary.criticalCount =
      (Analyzer.analyzeAllRequests l' o).summary.criticalCount ∧
    (Analyzer.analyzeAllRequests l o).summary.highCount =
      (Analyzer.analyzeAllRequests l' o).summary.highCount ∧
    Analyzer.histCount (Analyzer.analyzeAllRequests l o).summary.categories =
      Analyzer.histCount (Analyzer.analyzeAllRequests l' o).summary.categories ∧
    (Analyzer.analyzeAllRequests l o).summary.overallRisk =
      (Analyzer.analyzeAllRequests l' o).summary.overallRisk ∧
    (Analyzer.analyzeAllRequests l o).summary.totalRiskScore =
      (Analyzer.analyzeAllRequests l' o).summary.totalRiskScore := by
  open Analyzer in
  simp only [Analyzer.analyzeAllRequests]
  refine ⟨h.length_eq, ?_, ?_, ?_, ?_, ?_, ?_⟩
  · rw [foldl_stepAll_suspiciousRequests, foldl_stepAll_suspiciousRequests]
    simp only [initAllState, List.nil_append, List.length_map]
    exact (h.filter _).length_eq
  · rw [foldl_stepAll_criticalCount, foldl_stepAll_criticalCount]
    simp only [initAllState, Nat.zero_add]
    exact h.countP_eq _
  · rw [foldl_stepAll_highCount, foldl_stepAll_highCount]
    simp only [initAllState, Nat.zero_add]
    exact h.countP_eq _
  · funext x
    rw [foldl_stepAll_histCount, foldl_stepAll_histCount]
    simp only [initAllState, histCount, Nat.zero_add]
    exact (h.map _).sum_eq
  · rw [foldl_stepAll_highestRisk, foldl_stepAll_highestRisk]
    simp only [initAllState, Nat.zero_max]
    exact congrArg overallRiskName (perm_foldr_max _ _ (h.map _))
  · rw [foldl_stepAll_totalRiskScore, foldl_stepAll_totalRiskScore]
    simp only [initAllState, Nat.zero_add]
    exact (h.map _).sum_eq

/-- A cryptominer request, used in the C7 witness lists. -/
def Analyzer.coinReq : Analyzer.NetworkRequest :=
  { url := "http://coinhive.com/miner.js", domain := "coinhive.com",
    resourceType := "script", status := some 200, isSuspicious := false,
    reason := none }

/-- A benign same-origin request, used in the C7 witness lists. -/
def Analyzer.benignReq : Analyzer.NetworkRequest :=
  { url := "https://example.com/app.css", domain := "example.com",
    resourceType := "stylesheet", status := some 200, isSuspicious := false,
    reason := none }

/-- Witness for C7: the two-element request list and its swap produce the
same summary. -/
theorem analyzeAllRequests_perm_summary_witness :
    (Analyzer.analyzeAllRequests [Analyzer.coinReq, Analyzer.benignReq] "example.com").summary.totalRequests =
      (Analyzer.analyzeAllRequests [Analyzer.benignReq, Analyzer.coinReq] "example.com").summary.totalRequests ∧
    (Analyzer.analyzeAllRequests [Analyzer.coinReq, Analyzer.benignReq] "example.com").summary.suspiciousCount =
      (Analyzer.analyzeAllRequests [Analyzer.benignReq, Analyzer.coinReq] "example.com").summary.suspiciousCount ∧
    (Analyzer.analyzeAllRequests [Analyzer.coinReq, Analyzer.benignReq] "example.com").summary.criticalCount =
      (Analyzer.analyzeAllRequests [Analyzer.benignReq, Analyzer.coinReq] "example.com").summary.criticalCount ∧
    (Analyzer.analyzeAllRequests [Analyzer.coinReq, Analyzer.benignReq] "example.com").summary.highCount =
      (Analyzer.analyzeAllRequests [Analyzer.benignReq, Analyzer.coinReq] "example.com").summary.highCount ∧
    Analyzer.histCount (Analyzer.analyzeAllRequests [Analyzer.coinReq, Analyzer.benignReq] "example.com").summary.categories =
      Analyzer.histCount (Analyzer.analyzeAllRequests [Analyzer.benignReq, Analyzer.coinReq] "example.com").summary.categories ∧
    (Analyzer.analyzeAllRequests [Analyzer.coinReq, Analyzer.benignReq] "example.com").summary.overallRisk =
      (Analyzer.analyzeAllRequests [Analyzer.benignReq, Analyzer.coinReq] "example.com").summary.overallRisk ∧
    (Analyzer.analyzeAllRequests [Analyzer.coinReq, Analyzer.benignReq] "example.com").summary.totalRiskScore =
      (Analyzer.analyzeAllRequests [Analyzer.benignReq, Analyzer.coinReq] "example.com").summary.totalRiskScore :=
  analyzeAllRequests_perm_summary
    [Analyzer.coinReq, Analyzer.benignReq] [Analyzer.benignReq, Analyzer.coinReq]
    "example.com" (List.Perm.swap Analyzer.benignReq Analyzer.coinReq [])

/-- C8: aggregating the empty request list yields `overallRisk = "safe"`
and `totalRequests = 0`, for every origin domain. -/
theorem analyzeAllRequests_empty (o : String) :
    (Analyzer.analyzeAllRequests [] o).summary.overallRisk = "safe" ∧
    (Analyzer.analyzeAllRequests [] o).summary.totalRequests = 0 :=
  ⟨rfl, rfl⟩
